import Mathlib

/-
Verification of the pc-monitoring-system scan lifecycle and threat engine.

Shallow embedding of:
  scanner-agent/src/core/scheduler.py   (ScanScheduler)
  scanner-agent/src/core/api_client.py  (APIClient)
  scanner-agent/src/main.py             (ScannerAgent loop)
  api-server/app/services/threat_analyzer.py (ThreatAnalyzer)

Timestamps are integers (microseconds, the resolution of Python datetime
arithmetic); a timedelta of m minutes is m * 60000000 microseconds.
Wall-clock reads (datetime.now / datetime.utcnow) become explicit
time parameters.  Network traffic is abstracted by an HttpOutcome value
describing what the one session.request call did; json.loads on the body
is abstracted by the parse field of that outcome.  Python exceptions are
modelled with Except.
-/

/-! ## ScanScheduler (scanner-agent/src/core/scheduler.py) -/

structure SchedConfig where
  scan_interval_minutes : Int
deriving DecidableEq, Repr

structure SchedState where
  config : SchedConfig
  last_scan_time : Option Int
  next_scan_time : Option Int
deriving DecidableEq, Repr

/-- timedelta(minutes=m) in microseconds. -/
def minutesToMicros (m : Int) : Int := m * 60000000

/-- ScanScheduler._calculate_next_scan; now is the datetime.now() of the call. -/
def calculate_next_scan (s : SchedState) (now : Int) : SchedState :=
  match s.last_scan_time with
  | none => { s with next_scan_time := some now }
  | some l =>
      { s with next_scan_time := some (l + minutesToMicros s.config.scan_interval_minutes) }

/-- ScanScheduler.__init__: no last scan, then _calculate_next_scan. -/
def sched_init (intervalMinutes : Int) (now : Int) : SchedState :=
  calculate_next_scan
    { config := { scan_interval_minutes := intervalMinutes },
      last_scan_time := none, next_scan_time := none } now

/-- ScanScheduler.should_scan: true iff now is at or past next_scan_time. -/
def should_scan (s : SchedState) (now : Int) : Bool :=
  match s.next_scan_time with
  | none => true
  | some nx => decide (nx ≤ now)

/-- The method viewed uniformly as a state transformer: it returns the
queried flag together with the state it leaves behind (the source method
only reads fields and logs; it performs no assignment). -/
def should_scan_m (s : SchedState) (now : Int) : Bool × SchedState :=
  (should_scan s now, s)

/-- ScanScheduler.mark_scan_completed at wall-clock time now. -/
def mark_scan_completed (s : SchedState) (now : Int) : SchedState :=
  calculate_next_scan { s with last_scan_time := some now } now

/-- ScanScheduler.force_next_scan at wall-clock time now. -/
def force_next_scan (s : SchedState) (now : Int) : SchedState :=
  { s with next_scan_time := some now }

/-- ScanScheduler.update_interval: writes the config field, then
recomputes (the recomputation reads datetime.now() when last_scan_time
is unset, hence the now parameter). -/
def update_interval (s : SchedState) (newIntervalMinutes : Int) (now : Int) : SchedState :=
  calculate_next_scan
    { s with config := { scan_interval_minutes := newIntervalMinutes } } now

/-- ScanScheduler.get_time_until_next_scan. -/
def get_time_until_next_scan (s : SchedState) (now : Int) : Int :=
  match s.next_scan_time with
  | none => 0
  | some nx => if nx ≤ now then 0 else nx - now

/-- One mutating call on the scheduler, tagged with the wall-clock time at
which it runs. -/
inductive SchedEvent
  | markCompleted (now : Int)
  | forceNext (now : Int)
  | updateInterval (newIntervalMinutes : Int) (now : Int)
deriving DecidableEq, Repr

def schedStep (s : SchedState) (e : SchedEvent) : SchedState :=
  match e with
  | .markCompleted now => mark_scan_completed s now
  | .forceNext now => force_next_scan s now
  | .updateInterval m now => update_interval s m now

def schedRun (s : SchedState) (evs : List SchedEvent) : SchedState :=
  evs.foldl schedStep s

def SchedEvent.time : SchedEvent → Int
  | .markCompleted now => now
  | .forceNext now => now
  | .updateInterval _ now => now

def SchedEvent.isForce : SchedEvent → Bool
  | .forceNext _ => true
  | _ => false

/-- The spec invariant on ScheduleState, relative to a current time bound:
when last_scan_time is set, next_scan_time is exactly one interval later;
when it is unset, next_scan_time is some already-passed instant (due). -/
def SchedInvariant (now : Int) (s : SchedState) : Prop :=
  (∀ l, s.last_scan_time = some l →
      s.next_scan_time = some (l + minutesToMicros s.config.scan_interval_minutes)) ∧
  (s.last_scan_time = none → ∃ u, s.next_scan_time = some u ∧ u ≤ now)

/-! ## JSON values and Python dict operations (api_client.py environment) -/

/-- A parsed JSON value, as json.loads would return; objects keep key
order and Python dicts have unique keys, modelled as assoc lists read by
first match. -/
inductive JVal
  | null
  | bool (b : Bool)
  | num (n : Int)
  | str (s : String)
  | arr (xs : List JVal)
  | obj (kvs : List (String × JVal))

/-- Python truthiness of a JSON value. -/
def JVal.truthy : JVal → Bool
  | .null => false
  | .bool b => b
  | .num n => decide (n ≠ 0)
  | .str s => !(s == "")
  | .arr xs => !xs.isEmpty
  | .obj kvs => !kvs.isEmpty

def lookupKey : List (String × JVal) → String → Option JVal
  | [], _ => none
  | (k, v) :: rest, key => if k = key then some v else lookupKey rest key

/-- dict.get(key) (default None). Non-mapping values have no get method in
Python (an AttributeError, caught by every caller that could receive one);
returning none here yields the same observable control flow. -/
def JVal.get (v : JVal) (k : String) : Option JVal :=
  match v with
  | .obj kvs => lookupKey kvs k
  | _ => none

/-- key in dict. -/
def JVal.hasKey (v : JVal) (k : String) : Bool :=
  match v.get k with
  | some _ => true
  | none => false

/-- Truthiness of a dict.get result (missing key gives None, falsy). -/
def optTruthy : Option JVal → Bool
  | none => false
  | some v => v.truthy

/-- One assignment d[k] = v: overwrite in place if present, else append
(Python dict insertion-order semantics). -/
def setKey : List (String × JVal) → String → JVal → List (String × JVal)
  | [], k, v => [(k, v)]
  | (k1, v1) :: rest, k, v =>
      if k1 = k then (k1, v) :: rest else (k1, v1) :: setKey rest k v

/-- dict.update with the given key-value pairs, in order. -/
def dictUpdate (d : List (String × JVal)) (updates : List (String × JVal)) :
    List (String × JVal) :=
  updates.foldl (fun acc kv => setKey acc kv.1 kv.2) d

/-! ## APIClient (scanner-agent/src/core/api_client.py) -/

/-- An exception escaping the try body of APIClient._make_request. -/
inductive PyExn
  | clientError (msg : String)
  | otherExn (msg : String)
deriving DecidableEq, Repr

/-- What one session.request call did: raised aiohttp.ClientError, raised
some other exception, or delivered a response with an HTTP status, a body
text, and the result of json.loads on that text (none when the body is
not valid JSON). -/
inductive HttpOutcome
  | raiseClientError (msg : String)
  | raiseOther (msg : String)
  | response (status : Nat) (text : String) (parsed : Option JVal)

/-- The try body of _make_request (lines 26-47): build the result for a
delivered response, or let the exception propagate. -/
def requestAttempt (o : HttpOutcome) : Except PyExn JVal :=
  match o with
  | .raiseClientError m => .error (.clientError m)
  | .raiseOther m => .error (.otherExn m)
  | .response status text parsed =>
      if status = 200 then
        match parsed with
        | some v => .ok v
        | none => .ok (.obj [("success", .bool true), ("data", .str text)])
      else
        .ok (.obj [("success", .bool false),
                   ("error", .str ("HTTP " ++ toString status ++ ": " ++ text)),
                   ("status_code", .num (status : Int))])

/-- APIClient._make_request with its two except clauses; the method and
endpoint build the url and the data feeds the request keyword arguments,
whose effect on the wire is abstracted by the outcome. An Except result
type keeps the question of whether an exception can escape visible. -/
def make_request (method endpoint : String) (data : Option JVal) (o : HttpOutcome) :
    Except PyExn JVal :=
  match requestAttempt o with
  | .ok v => .ok v
  | .error (.clientError m) =>
      .ok (.obj [("success", .bool false), ("error", .str ("Error de conexión: " ++ m))])
  | .error (.otherExn m) =>
      .ok (.obj [("success", .bool false), ("error", .str ("Error inesperado: " ++ m))])

/-- The value _make_request hands back to its caller. -/
def make_request_ok (method endpoint : String) (data : Option JVal) (o : HttpOutcome) :
    JVal :=
  match make_request method endpoint data o with
  | .ok v => v
  | .error _ => .null

/-- The success check every caller performs: response.get("success")
read for truthiness. -/
def respSuccess (r : JVal) : Bool := optTruthy (r.get "success")

/-- response.get("status_code") == 401 as Python evaluates it. -/
def isStatus401 : Option JVal → Bool
  | some (.num n) => decide (n = 401)
  | _ => false

structure AgentConfig where
  manager_id : String
  machine_id : String
  machine_name : String
deriving DecidableEq, Repr

/-- APIClient.send_scan_data: mutates the caller-supplied dict in place
with the identity fields, then posts it.  The returned pair is the
response together with the state of the caller-visible dict after the
call (the same object, updated). -/
def send_scan_data (cfg : AgentConfig) (scan_data : List (String × JVal))
    (o : HttpOutcome) : JVal × List (String × JVal) :=
  let updated := dictUpdate scan_data
      [("manager_id", .str cfg.manager_id),
       ("machine_id", .str cfg.machine_id),
       ("machine_name", .str cfg.machine_name)]
  let response := make_request_ok "POST" "/scans" (some (.obj updated)) o
  (response, updated)

/-- APIClient.check_tasks: a logging wrapper around the GET. -/
def check_tasks (o : HttpOutcome) : JVal :=
  make_request_ok "GET" "/agent/check-task" none o

/-- APIClient.test_connection: true when the result reads as a success or
carries status code 401 (the surrounding try/except never fires in the
model because _make_request already returns, never raises). -/
def test_connection (o : HttpOutcome) : Bool :=
  let r := make_request_ok "GET" "/agent/check-task" none o
  respSuccess r || isStatus401 (r.get "status_code")

/-! ## ScannerAgent loop (scanner-agent/src/main.py) -/

/-- Observable calls made during one loop iteration, in order. -/
inductive AgentEv
  | sendScanEv
  | markCompletedEv
  | errorLogEv
  | configUpdateEv
  | sleepEv (seconds : Int)
deriving DecidableEq, Repr

/-- The environment one loop iteration runs in: the configuration, the
behavior of each enabled scanner module for this iteration (scan order is
the dict insertion order of _load_scanners), and the network outcomes of
the task-check GET and of the scan POST. -/
structure IterEnv where
  cfg : AgentConfig
  taskOutcome : HttpOutcome
  scanners : List (String × Except String JVal)
  sendOutcome : HttpOutcome
  check_interval : Int

/-- The module-collection loop of ScannerAgent.perform_scan (lines 66-70):
run the scanners in order, keying each payload by module name; the first
raising scanner aborts the whole collection with its exception. -/
def collectModules : List (String × Except String JVal) →
    Except String (List (String × JVal))
  | [] => .ok []
  | (nm, .ok payload) :: rest =>
      (collectModules rest).map (fun tail => (nm, payload) :: tail)
  | (_, .error e) :: _ => .error e

/-- ScannerAgent.perform_scan: collect all modules into the envelope, send
it, and log the send result.  Returns the exception state (a raising
module makes the method log and re-raise, lines 85-87) and the calls it
made.  A send failure is only logged: the method still returns normally. -/
def perform_scan (cfg : AgentConfig) (scanners : List (String × Except String JVal))
    (sendOutcome : HttpOutcome) (nowIso : String) :
    Except String Unit × List AgentEv :=
  match collectModules scanners with
  | .error e => (.error e, [.errorLogEv])
  | .ok datas =>
      let scan_data :=
        [("timestamp", JVal.str nowIso),
         ("machine_id", JVal.str cfg.machine_id),
         ("manager_id", JVal.str cfg.manager_id),
         ("scan_type", JVal.str "full"),
         ("data", JVal.obj datas)]
      let sent := send_scan_data cfg scan_data sendOutcome
      if respSuccess sent.1 then (.ok (), [.sendScanEv])
      else (.ok (), [.sendScanEv, .errorLogEv])

/-- ScannerAgent.check_for_tasks: read the task directive; a truthy
should_scan triggers perform_scan inside the same try, whose exception is
caught here (line 101) and also skips the config_updates branch; the
method itself never raises. -/
def check_for_tasks (env : IterEnv) (nowIso : String) : List AgentEv :=
  let task_info := check_tasks env.taskOutcome
  let configEvs : List AgentEv :=
    if task_info.hasKey "config_updates" then [.configUpdateEv] else []
  if optTruthy (task_info.get "should_scan") then
    match perform_scan env.cfg env.scanners env.sendOutcome nowIso with
    | (.error _, evs) => evs ++ [.errorLogEv]
    | (.ok _, evs) => evs ++ configEvs
  else configEvs

/-- Outcome of one pass of the while body of run_continuous. -/
structure IterResult where
  events : List AgentEv
  sched : SchedState
  continues : Bool
deriving Repr

/-- One iteration of ScannerAgent.run_continuous (lines 107-122): check
for tasks, then, when the scheduler says the scan is due, perform it and
mark it completed; an exception escaping the body is caught by the
outer except (lines 120-122), which logs and sleeps 60 seconds instead
of the check interval.  The loop leaves only on KeyboardInterrupt, an
external signal outside the model, so every modelled iteration
continues. -/
def run_continuous_iter (env : IterEnv) (sched : SchedState) (now : Int)
    (nowIso : String) : IterResult :=
  let evs1 := check_for_tasks env nowIso
  if should_scan sched now then
    match perform_scan env.cfg env.scanners env.sendOutcome nowIso with
    | (.error _, evs2) =>
        ⟨evs1 ++ evs2 ++ [.errorLogEv, .sleepEv 60], sched, true⟩
    | (.ok _, evs2) =>
        ⟨evs1 ++ evs2 ++ [.markCompletedEv, .sleepEv env.check_interval],
         mark_scan_completed sched now, true⟩
  else ⟨evs1 ++ [.sleepEv env.check_interval], sched, true⟩

/-! ## ThreatAnalyzer (api-server/app/services/threat_analyzer.py)

The payload sections are structured records mirroring the dict shapes the
analyzer reads; a missing key is an Option none and carries the same
default the corresponding .get call supplies.  Each Threat construction
calls datetime.utcnow() once, in emission order, so the ambient clock is
modelled as a stream indexed by the position of the emitted record. -/

structure PortInfo where
  port : Option Int
  process_name : Option String
deriving DecidableEq, Repr

structure UserAccount where
  is_admin : Option Bool
  password_required : Option Bool
  username : Option String
deriving DecidableEq, Repr

structure HostsData where
  suspicious_entries : Option (List String)
deriving DecidableEq, Repr

structure SecurityEvent where
  event_id : Option Int
deriving DecidableEq, Repr

structure FileInfo where
  name : Option String
deriving DecidableEq, Repr

structure TaskInfo where
  name : Option String
  command : Option String
deriving DecidableEq, Repr

structure EnvVars where
  PATH : Option String
deriving DecidableEq, Repr

structure SecurityScan where
  open_ports : Option (List PortInfo)
  user_accounts : Option (List UserAccount)
  hosts_file : Option HostsData
  security_events : Option (List SecurityEvent)
deriving DecidableEq, Repr

structure ActivityScan where
  recent_files : Option (List FileInfo)
deriving DecidableEq, Repr

structure SystemHealth where
  scheduled_tasks : Option (List TaskInfo)
  environment_variables : Option EnvVars
deriving DecidableEq, Repr

structure ScanData where
  security_scan : Option SecurityScan
  activity_scan : Option ActivityScan
  system_health : Option SystemHealth
deriving DecidableEq, Repr

def SecurityScan.empty : SecurityScan := ⟨none, none, none, none⟩

def ActivityScan.empty : ActivityScan := ⟨none⟩

def SystemHealth.empty : SystemHealth := ⟨none, none⟩

def HostsData.empty : HostsData := ⟨none⟩

def EnvVars.empty : EnvVars := ⟨none⟩

/-- The evidence snapshot each rule stores on its record. -/
inductive Evidence
  | port (p : PortInfo)
  | adminUsers (admin_count : Nat) (users : List UserAccount)
  | user (u : UserAccount)
  | hosts (h : HostsData)
  | logins (failed_login_count : Nat) (events : List SecurityEvent)
  | file (f : FileInfo)
  | task (t : TaskInfo)
  | pathEntry (path : String) (suspicious_path : String)
deriving DecidableEq, Repr

/-- A Threat record as the analyzer constructs it. -/
structure Threat where
  machine_id : String
  threat_type : String
  description : String
  evidence : Evidence
  detected_at : Int
deriving DecidableEq, Repr

/-- A record before its utcnow() timestamp is attached. -/
structure PreThreat where
  machine_id : String
  threat_type : String
  description : String
  evidence : Evidence
deriving DecidableEq, Repr

def PreThreat.withTime (p : PreThreat) (ts : Int) : Threat :=
  ⟨p.machine_id, p.threat_type, p.description, p.evidence, ts⟩

def Threat.eraseTime (t : Threat) : PreThreat :=
  ⟨t.machine_id, t.threat_type, t.description, t.evidence⟩

/-- Give the k-th emitted record the k-th clock reading. -/
def attachTimes (clock : Nat → Int) : Nat → List PreThreat → List Threat
  | _, [] => []
  | k, p :: rest => p.withTime (clock k) :: attachTimes clock (k + 1) rest

def suspicious_ports : List Int := [1337, 31337, 4444, 5555, 6666, 7777, 8888, 9999]

def malicious_processes : List String :=
  ["netcat", "nc", "mimikatz", "psexec", "wce", "fgdump",
   "pwdump", "gsecdump", "cachedump", "lsadump"]

def dangerous_extensions : List String :=
  [".exe.pdf", ".pdf.exe", ".doc.exe", ".jpg.exe",
   ".png.exe", ".txt.exe", ".scr", ".pif", ".bat.exe"]

/-- Python str.lower, applied per character (the rule strings and the
payload strings of interest are ASCII, where this coincides with the
Python method; String.toLower is avoided only because its byte-level
implementation does not reduce inside the kernel). -/
def pyLower (s : String) : String := String.mk (s.data.map Char.toLower)

/-- Python substring membership pat in s, over character lists. -/
def charsContain (pat : List Char) : List Char → Bool
  | [] => pat.isPrefixOf []
  | c :: rest => pat.isPrefixOf (c :: rest) || charsContain pat rest

/-- Python pat in s for strings. -/
def strIn (pat s : String) : Bool := charsContain pat.data s.data

/-- How a Python f-string renders an optional int (missing key is None). -/
def pyShowOptInt : Option Int → String
  | some i => toString i
  | none => "None"

/-- How a Python f-string renders an optional string. -/
def pyShowOptStr : Option String → String
  | some s => s
  | none => "None"

/-- The two independent checks of _analyze_open_ports for one entry. -/
def portEntryThreats (mid : String) (pi : PortInfo) : List PreThreat :=
  let process_name := pyLower (pi.process_name.getD "")
  (if (match pi.port with
       | some p => suspicious_ports.contains p
       | none => false) then
     [⟨mid, "PUERTO_SOSPECHOSO",
       "Puerto sospechoso " ++ pyShowOptInt pi.port ++ " abierto por " ++ process_name,
       .port pi⟩]
   else []) ++
  (if malicious_processes.any (fun m => strIn m process_name) then
     [⟨mid, "PROCESO_MALICIOSO",
       "Proceso potencialmente malicioso detectado: " ++ process_name,
       .port pi⟩]
   else [])

/-- ThreatAnalyzer._analyze_open_ports. -/
def analyze_open_ports (mid : String) (open_ports : List PortInfo) : List PreThreat :=
  (open_ports.map (portEntryThreats mid)).flatten

/-- ThreatAnalyzer._analyze_user_accounts. -/
def analyze_user_accounts (mid : String) (user_accounts : List UserAccount) :
    List PreThreat :=
  let admin_count := (user_accounts.filter (fun u => u.is_admin.getD false)).length
  (if 3 < admin_count then
     [⟨mid, "EXCESO_ADMINISTRADORES",
       "Demasiadas cuentas de administrador detectadas: " ++ toString admin_count,
       .adminUsers admin_count user_accounts⟩]
   else []) ++
  (user_accounts.filter (fun u => !(u.password_required.getD true))).map
    (fun u => ⟨mid, "CUENTA_SIN_PASSWORD",
      "Cuenta sin contraseña: " ++ pyShowOptStr u.username, .user u⟩)

/-- ThreatAnalyzer._analyze_hosts_file. -/
def analyze_hosts_file (mid : String) (hosts_data : HostsData) : List PreThreat :=
  (hosts_data.suspicious_entries.getD []).map
    (fun entry => ⟨mid, "HOSTS_MODIFICADO",
      "Entrada sospechosa en archivo hosts: " ++ entry, .hosts hosts_data⟩)

/-- ThreatAnalyzer._analyze_security_events. -/
def analyze_security_events (mid : String) (security_events : List SecurityEvent) :
    List PreThreat :=
  let failed_logins := security_events.filter (fun e => e.event_id == some 4625)
  if 10 < failed_logins.length then
    [⟨mid, "MULTIPLES_INTENTOS_LOGIN",
      "Múltiples intentos de login fallidos detectados: " ++ toString failed_logins.length,
      .logins failed_logins.length (failed_logins.take 5)⟩]
  else []

/-- ThreatAnalyzer._analyze_recent_files. -/
def analyze_recent_files (mid : String) (recent_files : List FileInfo) :
    List PreThreat :=
  (recent_files.filter
      (fun f => dangerous_extensions.any (fun ext => strIn ext (pyLower (f.name.getD ""))))).map
    (fun f => ⟨mid, "ARCHIVO_SOSPECHOSO",
      "Archivo con extensión sospechosa: " ++ pyLower (f.name.getD ""), .file f⟩)

/-- ThreatAnalyzer._analyze_scheduled_tasks. -/
def analyze_scheduled_tasks (mid : String) (scheduled_tasks : List TaskInfo) :
    List PreThreat :=
  (scheduled_tasks.filter
      (fun t => malicious_processes.any (fun m => strIn m (pyLower (t.command.getD ""))))).map
    (fun t => ⟨mid, "TAREA_MALICIOSA",
      "Tarea programada sospechosa: " ++ pyLower (t.name.getD ""), .task t⟩)

def suspicious_paths : List String := ["temp", "tmp", "appdata\\local\\temp", "programdata"]

/-- ThreatAnalyzer._analyze_environment_variables. -/
def analyze_environment_variables (mid : String) (env_vars : EnvVars) : List PreThreat :=
  let path_var := env_vars.PATH.getD ""
  (suspicious_paths.filter (fun sp => strIn sp (pyLower path_var))).map
    (fun sp => ⟨mid, "PATH_MODIFICADO",
      "PATH contiene ruta sospechosa: " ++ sp, .pathEntry path_var sp⟩)

/-- ThreatAnalyzer.analyze_scan_data before timestamps: the seven
sub-analyzers in source order over the payload sections (missing sections
read as empty). -/
def analyze_scan_data_pre (mid : String) (sd : ScanData) : List PreThreat :=
  let sec := sd.security_scan.getD .empty
  let act := sd.activity_scan.getD .empty
  let sys := sd.system_health.getD .empty
  analyze_open_ports mid (sec.open_ports.getD []) ++
  analyze_user_accounts mid (sec.user_accounts.getD []) ++
  analyze_hosts_file mid (sec.hosts_file.getD .empty) ++
  analyze_security_events mid (sec.security_events.getD []) ++
  analyze_recent_files mid (act.recent_files.getD []) ++
  analyze_scheduled_tasks mid (sys.scheduled_tasks.getD []) ++
  analyze_environment_variables mid (sys.environment_variables.getD .empty)

/-- ThreatAnalyzer.analyze_scan_data, with the utcnow() readings made
explicit: the k-th emitted record is stamped with the k-th clock value. -/
def analyze_scan_data (mid : String) (sd : ScanData) (clock : Nat → Int) : List Threat :=
  attachTimes clock 0 (analyze_scan_data_pre mid sd)

/-! ## Concrete inputs used by counterexamples and witnesses -/

/-- A payload whose only content is one open port 31337 owned by svc.exe. -/
def c6Payload1 : ScanData :=
  { security_scan := some { SecurityScan.empty with
      open_ports := some [⟨some 31337, some "svc.exe"⟩] },
    activity_scan := none, system_health := none }

/-- A payload whose only content is one open non-suspicious port 8080
owned by netcat.exe. -/
def c6Payload2 : ScanData :=
  { security_scan := some { SecurityScan.empty with
      open_ports := some [⟨some 8080, some "netcat.exe"⟩] },
    activity_scan := none, system_health := none }

/-- A payload with a single suspicious open port, so the analyzer emits
at least one record. -/
def c5Payload : ScanData :=
  { security_scan := some { SecurityScan.empty with
      open_ports := some [⟨some 31337, some "svc.exe"⟩] },
    activity_scan := none, system_health := none }

/-- An iteration environment in which the task check cannot reach the
server, the single module succeeds, and the scan POST comes back with
HTTP 500. -/
def envC3 : IterEnv :=
  { cfg := ⟨"mgr", "mach", "name"⟩,
    taskOutcome := .raiseClientError "refused",
    scanners := [("system", .ok (.obj []))],
    sendOutcome := .response 500 "err" none,
    check_interval := 300 }

/-- An iteration environment in which the single module raises. -/
def envC4 : IterEnv :=
  { cfg := ⟨"mgr", "mach", "name"⟩,
    taskOutcome := .response 200 "" (some (.obj [])),
    scanners := [("system", .error "boom")],
    sendOutcome := .response 200 "" (some (.obj [("success", .bool true)])),
    check_interval := 300 }

def cfgC9 : AgentConfig := ⟨"mgr", "mach", "name"⟩

/-! ## Helper lemmas -/

theorem attachTimes_map_eraseTime (clock : Nat → Int) (k : Nat) (l : List PreThreat) :
    (attachTimes clock k l).map Threat.eraseTime = l := by
  induction l generalizing k with
  | nil => rfl
  | cons p rest ih => simp [attachTimes, PreThreat.withTime, Threat.eraseTime, ih]

theorem attachTimes_length (clock : Nat → Int) (k : Nat) (l : List PreThreat) :
    (attachTimes clock k l).length = l.length := by
  induction l generalizing k with
  | nil => rfl
  | cons p rest ih => simp [attachTimes, ih]

theorem collectModules_ok (l : List (String × Except String JVal))
    (h : ∀ x ∈ l, ∃ v, x.2 = Except.ok v) :
    ∃ ds, collectModules l = Except.ok ds := by
  induction l with
  | nil => exact ⟨[], rfl⟩
  | cons x rest ih =>
      obtain ⟨nm, p⟩ := x
      obtain ⟨v, hv⟩ := h (nm, p) (List.mem_cons_self _ _)
      simp only at hv
      subst hv
      obtain ⟨ds, hds⟩ := ih (fun y hy => h y (List.mem_cons_of_mem _ hy))
      exact ⟨(nm, v) :: ds, by simp [collectModules, hds, Except.map]⟩

theorem collectModules_err (l : List (String × Except String JVal))
    (h : ∃ x ∈ l, ∃ e, x.2 = Except.error e) :
    ∃ e, collectModules l = Except.error e := by
  induction l with
  | nil => simp at h
  | cons x rest ih =>
      obtain ⟨nm, p⟩ := x
      obtain ⟨y, hy, e, he⟩ := h
      rcases List.mem_cons.mp hy with hhead | htail
      · subst hhead
        simp only at he
        subst he
        exact ⟨e, rfl⟩
      · cases p with
        | error e1 => exact ⟨e1, rfl⟩
        | ok v =>
            obtain ⟨e2, he2⟩ := ih ⟨y, htail, e, he⟩
            exact ⟨e2, by simp [collectModules, he2, Except.map]⟩

theorem schedInvariant_step (now : Int) (s : SchedState) (e : SchedEvent)
    (hs : SchedInvariant now s) (hnf : e.isForce = false) (ht : e.time ≤ now) :
    SchedInvariant now (schedStep s e) := by
  cases e with
  | markCompleted u =>
      have hst : schedStep s (.markCompleted u) =
          { config := s.config, last_scan_time := some u,
            next_scan_time := some (u + minutesToMicros s.config.scan_interval_minutes) } := rfl
      rw [hst]
      refine ⟨fun l hl => ?_, fun hnone => by simp at hnone⟩
      simp only [Option.some.injEq] at hl
      subst hl
      rfl
  | forceNext u => simp [SchedEvent.isForce] at hnf
  | updateInterval m u =>
      simp only [SchedEvent.time] at ht
      cases hls : s.last_scan_time with
      | none =>
          have hst : schedStep s (.updateInterval m u) =
              { config := ⟨m⟩, last_scan_time := none, next_scan_time := some u } := by
            simp [schedStep, update_interval, calculate_next_scan, hls]
          rw [hst]
          exact ⟨fun l hl => by simp at hl, fun _ => ⟨u, rfl, ht⟩⟩
      | some l0 =>
          have hst : schedStep s (.updateInterval m u) =
              { config := ⟨m⟩, last_scan_time := some l0,
                next_scan_time := some (l0 + minutesToMicros m) } := by
            simp [schedStep, update_interval, calculate_next_scan, hls]
          rw [hst]
          refine ⟨fun l hl => ?_, fun hnone => by simp at hnone⟩
          simp only [Option.some.injEq] at hl
          subst hl
          rfl

theorem schedInvariant_run (now : Int) (evs : List SchedEvent) (s : SchedState)
    (hs : SchedInvariant now s)
    (hnf : ∀ e ∈ evs, e.isForce = false)
    (ht : ∀ e ∈ evs, e.time ≤ now) :
    SchedInvariant now (schedRun s evs) := by
  induction evs generalizing s with
  | nil => exact hs
  | cons e rest ih =>
      exact ih (schedStep s e)
        (schedInvariant_step now s e hs (hnf e (List.mem_cons_self _ _))
          (ht e (List.mem_cons_self _ _)))
        (fun x hx => hnf x (List.mem_cons_of_mem _ hx))
        (fun x hx => ht x (List.mem_cons_of_mem _ hx))

/-! ## Claim theorems -/

/-- C1: for every scheduler state with a positive interval of I minutes
and every completion time t, immediately after mark_scan_completed at t
the query should_scan is false at every time in the window from t up to
but excluding t plus I, and true at every time from t plus I on; and
should_scan is a pure query, leaving any scheduler state exactly as it
found it. -/
theorem scheduler_window_after_completion (s : SchedState) (t q : Int)
    (hI : 0 < s.config.scan_interval_minutes) :
    (t ≤ q → q < t + minutesToMicros s.config.scan_interval_minutes →
       should_scan (mark_scan_completed s t) q = false) ∧
    (t + minutesToMicros s.config.scan_interval_minutes ≤ q →
       should_scan (mark_scan_completed s t) q = true) ∧
    (∀ s2 : SchedState, ∀ u : Int, (should_scan_m s2 u).2 = s2) := by
  have hst : mark_scan_completed s t =
      { config := s.config, last_scan_time := some t,
        next_scan_time := some (t + minutesToMicros s.config.scan_interval_minutes) } := rfl
  refine ⟨fun h1 h2 => ?_, fun h3 => ?_, fun s2 u => rfl⟩
  · rw [hst]
    simp only [should_scan, decide_eq_false_iff_not]
    omega
  · rw [hst]
    simp only [should_scan, decide_eq_true_eq]
    omega

/-- C1 witness: interval of one minute, completion at time 0; time 5 is
inside the closed-open window and time 60000000 (one minute later) is at
its end. -/
theorem scheduler_window_after_completion_witness :
    0 < (sched_init 1 0).config.scan_interval_minutes ∧
    should_scan (mark_scan_completed (sched_init 1 0) 0) 5 = false ∧
    should_scan (mark_scan_completed (sched_init 1 0) 0) 60000000 = true := by
  refine ⟨by decide, ?_, ?_⟩
  · exact (scheduler_window_after_completion (sched_init 1 0) 0 5 (by decide)).1
      (by decide) (by decide)
  · exact (scheduler_window_after_completion (sched_init 1 0) 0 60000000 (by decide)).2.1
      (by decide)

/-- C2 counterexample: starting from initialization with a one-minute
interval at time 0, the call sequence mark_scan_completed at 0 followed by
force_next_scan at 5 reaches a state whose last_scan_time is set (some 0)
while next_scan_time is some 5, not last_scan_time plus the interval
(60000000), falsifying the claimed invariant for reachable states. -/
theorem sched_invariant_force_counterexample :
    (schedRun (sched_init 1 0) [.markCompleted 0, .forceNext 5]).last_scan_time = some 0 ∧
    (schedRun (sched_init 1 0) [.markCompleted 0, .forceNext 5]).next_scan_time = some 5 ∧
    ¬ SchedInvariant 5 (schedRun (sched_init 1 0) [.markCompleted 0, .forceNext 5]) := by
  refine ⟨by decide, by decide, fun h => ?_⟩
  have h0 := h.1 0 (by decide)
  revert h0
  decide

/-- C2 amended: in every state reachable from initialization by
mark_scan_completed and update_interval calls alone (no force_next_scan),
next_scan_time equals last_scan_time plus the current interval whenever
last_scan_time is set; and whenever last_scan_time is unset,
next_scan_time is the wall-clock instant of the last recomputation, so
the scan is due (should_scan true) at any current time that is not before
the initialization and the calls.  force_next_scan breaks the set-case
relation until the next recomputation, as the counterexample shows. -/
theorem sched_invariant_no_force (intervalMinutes t0 now : Int) (evs : List SchedEvent)
    (hnf : ∀ e ∈ evs, e.isForce = false)
    (ht : ∀ e ∈ evs, e.time ≤ now) (h0 : t0 ≤ now) :
    SchedInvariant now (schedRun (sched_init intervalMinutes t0) evs) ∧
    ((schedRun (sched_init intervalMinutes t0) evs).last_scan_time = none →
       should_scan (schedRun (sched_init intervalMinutes t0) evs) now = true) := by
  have hinit : SchedInvariant now (sched_init intervalMinutes t0) :=
    ⟨fun l hl => by simp [sched_init, calculate_next_scan] at hl,
     fun _ => ⟨t0, rfl, h0⟩⟩
  have hinv := schedInvariant_run now evs (sched_init intervalMinutes t0) hinit hnf ht
  refine ⟨hinv, fun hnone => ?_⟩
  obtain ⟨u, hu, hun⟩ := hinv.2 hnone
  simp [should_scan, hu, hun]

/-- C2 amended witness: one completed scan at time 3 and an interval
update to 2 minutes at time 7, queried at time 100. -/
theorem sched_invariant_no_force_witness :
    SchedInvariant 100
      (schedRun (sched_init 1 0) [.markCompleted 3, .updateInterval 2 7]) := by
  exact (sched_invariant_no_force 1 0 100 [.markCompleted 3, .updateInterval 2 7]
    (by decide) (by decide) (by decide)).1

/-- C3 counterexample: in envC3 the only module succeeds, the scan POST
comes back HTTP 500 (a failure result), the task check forces nothing and
the scheduler says the scan is due, yet the iteration both logs an error
and calls mark_scan_completed: run_continuous marks completion whenever
perform_scan returns without raising, and a send failure is only logged
inside perform_scan, not raised. -/
theorem send_failure_still_marks_counterexample :
    envC3.scanners = [("system", Except.ok (JVal.obj []))] ∧
    envC3.sendOutcome = HttpOutcome.response 500 "err" none ∧
    (∀ d, respSuccess (make_request_ok "POST" "/scans" d envC3.sendOutcome) = false) ∧
    AgentEv.markCompletedEv ∈ (run_continuous_iter envC3 (sched_init 60 0) 0 "ts").events := by
  exact ⟨rfl, rfl, fun d => rfl, by decide⟩

/-- C3 amended: in a continuous-mode iteration where every module
succeeds, the send returns a failure result, the task directive does not
force a scan and the scheduler says the scan is due, the orchestrator
logs the error but still calls mark_scan_completed exactly once, so the
next scan is pushed a full interval out instead of staying due. -/
theorem send_failure_marks_completed (env : IterEnv) (sched : SchedState)
    (now : Int) (iso : String)
    (hmods : ∀ x ∈ env.scanners, ∃ v, x.2 = Except.ok v)
    (hsend : ∀ d, respSuccess (make_request_ok "POST" "/scans" d env.sendOutcome) = false)
    (htask : optTruthy ((check_tasks env.taskOutcome).get "should_scan") = false)
    (hdue : should_scan sched now = true) :
    (run_continuous_iter env sched now iso).events.count AgentEv.markCompletedEv = 1 ∧
    AgentEv.errorLogEv ∈ (run_continuous_iter env sched now iso).events ∧
    (run_continuous_iter env sched now iso).sched = mark_scan_completed sched now := by
  obtain ⟨ds, hds⟩ := collectModules_ok env.scanners hmods
  have hperf : perform_scan env.cfg env.scanners env.sendOutcome iso =
      (Except.ok (), [AgentEv.sendScanEv, AgentEv.errorLogEv]) := by
    simp [perform_scan, hds, send_scan_data, hsend]
  have hcheck : check_for_tasks env iso =
      (if (check_tasks env.taskOutcome).hasKey "config_updates"
       then [AgentEv.configUpdateEv] else []) := by
    simp [check_for_tasks, htask]
  simp only [run_continuous_iter, hdue, if_true, hperf, hcheck]
  by_cases hck : (check_tasks env.taskOutcome).hasKey "config_updates" <;>
    simp [hck, List.count_cons, List.count_append]

/-- C3 amended witness: the concrete environment envC3 at a due
scheduler. -/
theorem send_failure_marks_completed_witness :
    (run_continuous_iter envC3 (sched_init 60 0) 0 "ts").events.count
      AgentEv.markCompletedEv = 1 := by
  refine (send_failure_marks_completed envC3 (sched_init 60 0) 0 "ts"
    ?_ (fun d => rfl) rfl rfl).1
  intro x hx
  simp only [envC3, List.mem_singleton] at hx
  subst hx
  exact ⟨JVal.obj [], rfl⟩

/-- C4: in any continuous-mode iteration in which some module raises,
no send and no completion marking happen at all, the scheduler state is
untouched (the scan stays due), and the iteration ends in a sleep and
continues rather than terminating or rescanning: the exception from
perform_scan is caught (in check_for_tasks for a forced scan, at the top
of the loop body for a scheduled one). -/
theorem module_failure_isolates_iteration (env : IterEnv) (sched : SchedState)
    (now : Int) (iso : String)
    (hfail : ∃ x ∈ env.scanners, ∃ e, x.2 = Except.error e) :
    AgentEv.sendScanEv ∉ (run_continuous_iter env sched now iso).events ∧
    AgentEv.markCompletedEv ∉ (run_continuous_iter env sched now iso).events ∧
    (run_continuous_iter env sched now iso).sched = sched ∧
    (run_continuous_iter env sched now iso).continues = true ∧
    (∃ secs, (run_continuous_iter env sched now iso).events.getLast? =
       some (AgentEv.sleepEv secs)) := by
  obtain ⟨e, he⟩ := collectModules_err env.scanners hfail
  have hperf : perform_scan env.cfg env.scanners env.sendOutcome iso =
      (Except.error e, [AgentEv.errorLogEv]) := by
    simp [perform_scan, he]
  have hcheck : check_for_tasks env iso =
      (if optTruthy ((check_tasks env.taskOutcome).get "should_scan")
       then [AgentEv.errorLogEv, AgentEv.errorLogEv]
       else if (check_tasks env.taskOutcome).hasKey "config_updates"
       then [AgentEv.configUpdateEv] else []) := by
    by_cases hts : optTruthy ((check_tasks env.taskOutcome).get "should_scan") <;>
      simp [check_for_tasks, hts, hperf]
  by_cases hdue : should_scan sched now = true <;>
    by_cases hts : optTruthy ((check_tasks env.taskOutcome).get "should_scan") <;>
    by_cases hck : (check_tasks env.taskOutcome).hasKey "config_updates" <;>
    simp [run_continuous_iter, hdue, hperf, hcheck, hts, hck,
      List.getLast?_append, Bool.not_eq_true]

/-- C4 witness: the concrete environment envC4 whose only module raises,
at a due scheduler. -/
theorem module_failure_isolates_iteration_witness :
    AgentEv.sendScanEv ∉ (run_continuous_iter envC4 (sched_init 60 0) 0 "ts").events ∧
    AgentEv.markCompletedEv ∉ (run_continuous_iter envC4 (sched_init 60 0) 0 "ts").events := by
  have h := module_failure_isolates_iteration envC4 (sched_init 60 0) 0 "ts"
    ⟨("system", Except.error "boom"), List.mem_singleton.mpr rfl, "boom", rfl⟩
  exact ⟨h.1, h.2.1⟩

/-- C5 counterexample: the source arguments of analyze_scan_data are the
machine id and the payload, but each emitted Threat also stores a
datetime.utcnow() reading in detected_at; two invocations on the
identical machine id and payload made at different wall-clock instants
(clock readings 0 and 1) produce records that differ field-by-field in
detected_at. -/
theorem analyzer_clock_dependence_counterexample :
    analyze_scan_data "m" c5Payload (fun _ => 0) ≠
      analyze_scan_data "m" c5Payload (fun _ => 1) ∧
    (analyze_scan_data "m" c5Payload (fun _ => 0)).map Threat.detected_at = [0] ∧
    (analyze_scan_data "m" c5Payload (fun _ => 1)).map Threat.detected_at = [1] := by
  exact ⟨by decide, by decide, by decide⟩

/-- C5 amended: the analyzer is deterministic up to the detected_at
timestamps: for every machine id and payload, two invocations at any two
wall clocks emit the same number of records, with identical machine_id,
threat_type, description and evidence, in the same order; only
detected_at (the utcnow reading at record creation) can differ. -/
theorem analyzer_deterministic_up_to_timestamps (mid : String) (sd : ScanData)
    (c1 c2 : Nat → Int) :
    (analyze_scan_data mid sd c1).map Threat.eraseTime =
      (analyze_scan_data mid sd c2).map Threat.eraseTime ∧
    (analyze_scan_data mid sd c1).length = (analyze_scan_data mid sd c2).length := by
  constructor
  · rw [analyze_scan_data, analyze_scan_data,
      attachTimes_map_eraseTime, attachTimes_map_eraseTime]
  · rw [analyze_scan_data, analyze_scan_data, attachTimes_length, attachTimes_length]

/-- C6: the payload with the single open port 31337 owned by svc.exe
produces exactly one PUERTO_SOSPECHOSO record (the tag the source gives
the suspicious-port rule, SUSPICIOUS_PORT in the specification) and zero
PROCESO_MALICIOSO (MALICIOUS_PROCESS) records; the payload with the
single non-suspicious port 8080 owned by netcat.exe produces exactly one
PROCESO_MALICIOSO record and zero PUERTO_SOSPECHOSO records. -/
theorem port_rule_record_counts :
    (31337 ∈ suspicious_ports ∧ 8080 ∉ suspicious_ports) ∧
    ((analyze_scan_data "m" c6Payload1 (fun _ => 0)).countP
        (fun t => t.threat_type == "PUERTO_SOSPECHOSO") = 1 ∧
     (analyze_scan_data "m" c6Payload1 (fun _ => 0)).countP
        (fun t => t.threat_type == "PROCESO_MALICIOSO") = 0) ∧
    ((analyze_scan_data "m" c6Payload2 (fun _ => 0)).countP
        (fun t => t.threat_type == "PROCESO_MALICIOSO") = 1 ∧
     (analyze_scan_data "m" c6Payload2 (fun _ => 0)).countP
        (fun t => t.threat_type == "PUERTO_SOSPECHOSO") = 0) := by
  exact ⟨by decide, ⟨by decide, by decide⟩, ⟨by decide, by decide⟩⟩

theorem lookupKey_setKey_self (d : List (String × JVal)) (k : String) (v : JVal) :
    lookupKey (setKey d k v) k = some v := by
  induction d with
  | nil => simp [setKey, lookupKey]
  | cons kv rest ih =>
      obtain ⟨k1, v1⟩ := kv
      by_cases h : k1 = k <;> simp [setKey, lookupKey, h, ih]

theorem lookupKey_setKey_ne (d : List (String × JVal)) (k k2 : String) (v : JVal)
    (h : k2 ≠ k) : lookupKey (setKey d k v) k2 = lookupKey d k2 := by
  induction d with
  | nil => simp [setKey, lookupKey, Ne.symm h]
  | cons kv rest ih =>
      obtain ⟨k1, v1⟩ := kv
      by_cases h1 : k1 = k
      · subst h1
        simp [setKey, lookupKey, Ne.symm h]
      · by_cases h2 : k1 = k2 <;> simp [setKey, lookupKey, h1, h2, ih, h]

/-- C7: for every method, endpoint, body and simulated outcome, the
request primitive hands its caller a value, never an exception (the two
except clauses cover aiohttp.ClientError and every other exception); a
transport-level failure is returned as a tagged failure with no
status_code key, while a non-success HTTP status is returned as a tagged
failure carrying that status code — only the latter kind carries one. -/
theorem make_request_never_raises_and_classifies (method endpoint : String)
    (data : Option JVal) (o : HttpOutcome) :
    make_request method endpoint data o =
      Except.ok (make_request_ok method endpoint data o) ∧
    (∀ msg, (o = HttpOutcome.raiseClientError msg ∨ o = HttpOutcome.raiseOther msg) →
       (make_request_ok method endpoint data o).get "status_code" = none ∧
       (make_request_ok method endpoint data o).get "success" = some (JVal.bool false)) ∧
    (∀ status text parsed, o = HttpOutcome.response status text parsed → status ≠ 200 →
       (make_request_ok method endpoint data o).get "status_code" =
         some (JVal.num (status : Int)) ∧
       (make_request_ok method endpoint data o).get "success" = some (JVal.bool false)) := by
  refine ⟨?_, ?_, ?_⟩
  · cases o with
    | raiseClientError m => rfl
    | raiseOther m => rfl
    | response status text parsed =>
        by_cases h : status = 200
        · subst h
          cases parsed <;> rfl
        · simp [make_request, make_request_ok, requestAttempt, h]
  · rintro msg (rfl | rfl) <;> exact ⟨rfl, rfl⟩
  · rintro status text parsed rfl h
    constructor <;>
      simp [make_request_ok, make_request, requestAttempt, h, JVal.get, lookupKey]

/-- C7 witness: a concrete refused connection is returned as a tagged
failure without a status code, and a concrete 500 response as a tagged
failure carrying 500. -/
theorem make_request_never_raises_witness :
    (make_request_ok "GET" "/x" none (HttpOutcome.raiseClientError "refused")).get
      "status_code" = none ∧
    (make_request_ok "POST" "/y" none (HttpOutcome.response 500 "boom" none)).get
      "status_code" = some (JVal.num 500) := by
  constructor
  · exact ((make_request_never_raises_and_classifies "GET" "/x" none
      (HttpOutcome.raiseClientError "refused")).2.1 "refused" (Or.inl rfl)).1
  · exact ((make_request_never_raises_and_classifies "POST" "/y" none
      (HttpOutcome.response 500 "boom" none)).2.2 500 "boom" none rfl (by decide)).1

/-- C8: test_connection is true exactly when the task-check result reads
as a success or is classified with status code 401: every transport-level
failure gives false, a non-200 status gives true only for 401, a 200
response with a non-JSON body gives true (the fallback success), and a
200 JSON body gives true exactly when the body itself has a truthy
success field or carries status_code 401. -/
theorem test_connection_classification (o : HttpOutcome) :
    (∀ msg, (o = HttpOutcome.raiseClientError msg ∨ o = HttpOutcome.raiseOther msg) →
       test_connection o = false) ∧
    (∀ status text parsed, o = HttpOutcome.response status text parsed → status ≠ 200 →
       (test_connection o = true ↔ status = 401)) ∧
    (∀ text, o = HttpOutcome.response 200 text none → test_connection o = true) ∧
    (∀ text v, o = HttpOutcome.response 200 text (some v) →
       (test_connection o = true ↔
         (optTruthy (v.get "success") = true ∨ isStatus401 (v.get "status_code") = true))) := by
  refine ⟨?_, ?_, ?_, ?_⟩
  · rintro msg (rfl | rfl) <;> rfl
  · rintro status text parsed rfl h
    have hr : test_connection (HttpOutcome.response status text parsed) =
        decide ((status : Int) = 401) := by
      simp [test_connection, make_request_ok, make_request, requestAttempt, h,
        respSuccess, isStatus401, JVal.get, lookupKey, optTruthy, JVal.truthy]
    rw [hr]
    simp only [decide_eq_true_eq]
    omega
  · rintro text rfl
    rfl
  · rintro text v rfl
    simp [test_connection, make_request_ok, make_request, requestAttempt,
      respSuccess, Bool.or_eq_true]

/-- C8 witness: unauthorized (401) gives true; a refused connection and a
500 response give false. -/
theorem test_connection_classification_witness :
    test_connection (HttpOutcome.response 401 "Unauthorized" none) = true ∧
    test_connection (HttpOutcome.raiseClientError "refused") = false ∧
    test_connection (HttpOutcome.response 500 "boom" none) = false := by
  refine ⟨?_, ?_, ?_⟩
  · exact ((test_connection_classification (HttpOutcome.response 401 "Unauthorized" none)).2.1
      401 "Unauthorized" none rfl (by decide)).mpr rfl
  · exact (test_connection_classification (HttpOutcome.raiseClientError "refused")).1
      "refused" (Or.inl rfl)
  · have h := (test_connection_classification (HttpOutcome.response 500 "boom" none)).2.1
      500 "boom" none rfl (by decide)
    exact Bool.eq_false_iff.mpr (fun ht => absurd (h.mp ht) (by decide))

/-- C9 counterexample: send_scan_data updates the caller-supplied
envelope dict in place before posting; handing it an empty envelope, the
envelope is no longer empty after the call (the identity fields were
written into it), so the envelope is not unchanged by the call. -/
theorem send_scan_mutates_envelope_counterexample :
    (send_scan_data cfgC9 [] (HttpOutcome.response 200 "" none)).2 ≠
      ([] : List (String × JVal)) ∧
    lookupKey (send_scan_data cfgC9 [] (HttpOutcome.response 200 "" none)).2
      "machine_name" = some (JVal.str "name") := by
  constructor
  · simp [send_scan_data, dictUpdate, setKey]
  · rfl

/-- C9 amended: the envelope is not immutable across send_scan: the call
augments it in place with the manager_id, machine_id and machine_name
from the configuration; after the call those three keys hold exactly the
configured values, and every other key still holds what the envelope held
before, so the envelope is unchanged only when it already contained
exactly those three bindings. -/
theorem send_scan_augments_envelope (cfg : AgentConfig)
    (env : List (String × JVal)) (o : HttpOutcome) :
    lookupKey (send_scan_data cfg env o).2 "manager_id" =
      some (JVal.str cfg.manager_id) ∧
    lookupKey (send_scan_data cfg env o).2 "machine_id" =
      some (JVal.str cfg.machine_id) ∧
    lookupKey (send_scan_data cfg env o).2 "machine_name" =
      some (JVal.str cfg.machine_name) ∧
    (∀ k, k ≠ "manager_id" → k ≠ "machine_id" → k ≠ "machine_name" →
       lookupKey (send_scan_data cfg env o).2 k = lookupKey env k) := by
  have h2 : (send_scan_data cfg env o).2 =
      setKey (setKey (setKey env "manager_id" (JVal.str cfg.manager_id))
          "machine_id" (JVal.str cfg.machine_id))
        "machine_name" (JVal.str cfg.machine_name) := rfl
  rw [h2]
  refine ⟨?_, ?_, ?_, ?_⟩
  · rw [lookupKey_setKey_ne _ _ _ _ (by decide), lookupKey_setKey_ne _ _ _ _ (by decide),
      lookupKey_setKey_self]
  · rw [lookupKey_setKey_ne _ _ _ _ (by decide), lookupKey_setKey_self]
  · rw [lookupKey_setKey_self]
  · intro k ha hb hc
    rw [lookupKey_setKey_ne _ _ _ _ hc, lookupKey_setKey_ne _ _ _ _ hb,
      lookupKey_setKey_ne _ _ _ _ ha]

/-- C9 amended witness: a one-key envelope gains machine_name and keeps
its timestamp binding. -/
theorem send_scan_augments_envelope_witness :
    lookupKey (send_scan_data cfgC9 [("timestamp", JVal.str "ts")]
        (HttpOutcome.response 200 "" none)).2 "machine_name" =
      some (JVal.str "name") ∧
    lookupKey (send_scan_data cfgC9 [("timestamp", JVal.str "ts")]
        (HttpOutcome.response 200 "" none)).2 "timestamp" =
      lookupKey [("timestamp", JVal.str "ts")] "timestamp" := by
  have h := send_scan_augments_envelope cfgC9 [("timestamp", JVal.str "ts")]
    (HttpOutcome.response 200 "" none)
  exact ⟨h.2.2.1, h.2.2.2 "timestamp" (by decide) (by decide) (by decide)⟩

/-- C10: a 200 response whose body parses as JSON is returned verbatim,
with no success marker added, so the success check a caller performs
(reading the success field) holds exactly when the body itself carries a
truthy success field; a 200 response whose body is not JSON is wrapped as
a success and always passes the check. -/
theorem response_body_passthrough (method endpoint : String) (data : Option JVal)
    (text : String) (v : JVal) :
    make_request_ok method endpoint data (HttpOutcome.response 200 text (some v)) = v ∧
    respSuccess (make_request_ok method endpoint data
        (HttpOutcome.response 200 text (some v))) = optTruthy (v.get "success") ∧
    make_request_ok method endpoint data (HttpOutcome.response 200 text none) =
      JVal.obj [("success", JVal.bool true), ("data", JVal.str text)] ∧
    respSuccess (make_request_ok method endpoint data
        (HttpOutcome.response 200 text none)) = true := by
  exact ⟨rfl, rfl, rfl, rfl⟩
